import Mathlib

/-!
Verification of the workflow-orchestration core of `structured-workflow-mcp`.

The TypeScript sources under `src/` are shallowly embedded: the mutable
`SessionManager` becomes explicit state passing over `Option SessionState`,
`Map` fields become association lists, and the tool handlers
(`handleValidateAction`, `handleValidatePhaseCompletion`, `handlePhaseOutput`)
become pure functions from a state to a response together with the next state.
Platform functions that the code calls but the repository does not define
(`JSON.parse`, `Date.now`, `new Date().toISOString()`) are passed in as
parameters (`jsonValid`, `now`, `today`).
-/

/-- Association-list store mirroring the insertion-order semantics of a
TypeScript `Map`: `lookupStore` is `Map.get`, `setStore` is `Map.set`
(replaces in place, appends new keys at the end). -/
def lookupStore {α β : Type} [DecidableEq α] (k : α) : List (α × β) → Option β
  | [] => none
  | (k', v) :: rest => if k' = k then some v else lookupStore k rest

def setStore {α β : Type} [DecidableEq α] (k : α) (v : β) : List (α × β) → List (α × β)
  | [] => [(k, v)]
  | (k', v') :: rest => if k' = k then (k, v) :: rest else (k', v') :: setStore k v rest

/-- JavaScript `[...new Set(xs)]`: deduplicate keeping first occurrences. -/
def dedupKeepFirst {α : Type} [DecidableEq α] : List α → List α
  | [] => []
  | a :: rest => a :: dedupKeepFirst (rest.filter fun b => !decide (b = a))
termination_by l => l.length
decreasing_by
  simp only [List.length_cons]
  exact Nat.lt_succ_of_le (List.length_filter_le _ _)

def listIsPrefixOfB {α : Type} [DecidableEq α] : List α → List α → Bool
  | [], _ => true
  | _ :: _, [] => false
  | a :: as, b :: bs => decide (a = b) && listIsPrefixOfB as bs

def listIsInfixOfB {α : Type} [DecidableEq α] (needle : List α) : List α → Bool
  | [] => listIsPrefixOfB needle []
  | b :: bs => listIsPrefixOfB needle (b :: bs) || listIsInfixOfB needle bs

/-- String `haystack.includes(needle)`. -/
def strIncludes (haystack needle : String) : Bool :=
  listIsInfixOfB needle.toList haystack.toList

/-- Character-list form of `String.trim` / JavaScript `trim()`: drop leading
and trailing whitespace. -/
def trimChars (l : List Char) : List Char :=
  ((l.dropWhile Char.isWhitespace).reverse.dropWhile Char.isWhitespace).reverse

def strTrim (s : String) : String := String.mk (trimChars s.toList)

/-- JavaScript `s.toLowerCase()`: lower-case every character. -/
def strToLower (s : String) : String := String.mk (s.toList.map Char.toLower)

/-- JavaScript `s.replace` of every underscore by a hyphen. -/
def strReplaceUnderscores (s : String) : String :=
  String.mk (s.toList.map fun c => if c = '_' then '-' else c)

/-- The `Phase` enumeration from `src/types/index.ts` (the variant used by the
tool layer, whose write phase is `WRITE_OR_REFACTOR`). -/
inductive Phase where
  | PLANNING
  | AUDIT_INVENTORY
  | COMPARE_ANALYZE
  | QUESTION_DETERMINE
  | WRITE_OR_REFACTOR
  | TEST
  | LINT
  | ITERATE
  | PRESENT
  | USER_INPUT_REQUIRED
deriving DecidableEq, Repr

/-- The string value of each `Phase` enum member. -/
def Phase.str : Phase → String
  | .PLANNING => "PLANNING"
  | .AUDIT_INVENTORY => "AUDIT_INVENTORY"
  | .COMPARE_ANALYZE => "COMPARE_ANALYZE"
  | .QUESTION_DETERMINE => "QUESTION_DETERMINE"
  | .WRITE_OR_REFACTOR => "WRITE_OR_REFACTOR"
  | .TEST => "TEST"
  | .LINT => "LINT"
  | .ITERATE => "ITERATE"
  | .PRESENT => "PRESENT"
  | .USER_INPUT_REQUIRED => "USER_INPUT_REQUIRED"

structure FileHistory where
  hasBeenRead : Bool
  hasBeenModified : Bool
  firstReadAt : Option Nat
  lastModifiedAt : Option Nat
deriving DecidableEq, Repr

structure WorkflowMetrics where
  filesAnalyzed : Nat
  filesModified : Nat
  lintIssuesFound : Nat
  lintIssuesFixed : Nat
  phasesCompleted : Nat
deriving DecidableEq, Repr

/-- A dynamically-typed value appearing in a `completedWork` payload; the
validation algorithm only ever compares numbers and booleans. -/
inductive ReqValue where
  | num (n : Int)
  | bool (b : Bool)
deriving DecidableEq, Repr

/-- An expected value in `minimumRequirements` (number or boolean). -/
inductive ReqExpected where
  | num (n : Int)
  | bool (b : Bool)
deriving DecidableEq, Repr

structure ValidationState where
  isComplete : Bool
  completedRequirements : List String
  failedRequirements : List String
  lastValidatedAt : Nat
  attempts : Nat
deriving DecidableEq, Repr

structure IterationLimits where
  TEST : Nat
  LINT : Nat
  ITERATE : Nat
  maxTotalDuration : Option String
  maxPhaseAttempts : Option Nat
deriving DecidableEq, Repr

inductive OutputFormat where
  | markdown
  | json
deriving DecidableEq, Repr

structure OutputPreferences where
  formats : List OutputFormat
  realTimeUpdates : Bool
  generateDiagrams : Bool
  includeCodeSnippets : Bool
  outputDirectory : String
  createProgressReport : Bool
  createPhaseArtifacts : Bool
deriving DecidableEq, Repr

structure UserCheckpointConfig where
  beforeMajorChanges : Bool
  afterFailedIterations : Bool
  beforeFinalPresentation : Bool
  customCheckpoints : Option (List Phase)
deriving DecidableEq, Repr

structure EscalationConfig where
  enableUserInput : Bool
  escalateOnIterationLimit : Bool
  escalateOnErrors : Bool
  escalateOnTime : Bool
deriving DecidableEq, Repr

structure WorkflowConfiguration where
  selectedPhases : List Phase
  iterationLimits : IterationLimits
  outputPreferences : OutputPreferences
  userCheckpoints : UserCheckpointConfig
  escalationTriggers : EscalationConfig
deriving DecidableEq, Repr

inductive ArtifactFormat where
  | markdown
  | json
  | text
deriving DecidableEq, Repr

/-- Rendering of `ArtifactFormat` as the string of the TS union type. -/
def ArtifactFormat.str : ArtifactFormat → String
  | .markdown => "markdown"
  | .json => "json"
  | .text => "text"

structure OutputArtifact where
  path : String
  format : ArtifactFormat
  description : String
  content : String
deriving DecidableEq, Repr

/-- The `output : any` object submitted to `phase_output`; only the `errors`
and `fixesApplied` fields are inspected by the handler (for metrics). -/
structure OutputObject where
  errors : Option (List String)
  fixesApplied : Option (List String)
deriving DecidableEq, Repr

/-- The `enrichedOutput` object built by `handlePhaseOutput`. -/
structure EnrichedOutput where
  base : OutputObject
  artifacts : List OutputArtifact
  validatedAt : String
deriving DecidableEq, Repr

structure PhaseOutputRecord where
  phase : Phase
  completedAt : Nat
  duration : Nat
  output : EnrichedOutput
deriving DecidableEq, Repr

structure SessionState where
  id : String
  taskDescription : String
  startedAt : Nat
  currentPhase : Phase
  completedPhases : List Phase
  phaseOutputs : List (Phase × PhaseOutputRecord)
  fileHistory : List (String × FileHistory)
  metrics : WorkflowMetrics
  workflowConfig : Option WorkflowConfiguration
  iterationCounts : List (Phase × Nat)
  validationStates : List (Phase × ValidationState)
deriving DecidableEq, Repr

inductive Trigger where
  | iteration_limit
  | user_checkpoint
  | validation_failure
  | time_limit
deriving DecidableEq, Repr

/-- The `context : Record<string, any>` attached to an `EscalationContext`:
either `{currentLimits, phase, iterationCount}` or `{validationState, phase}`. -/
inductive EscalationInfo where
  | iterLimit (currentLimits : IterationLimits) (phase : Phase) (iterationCount : Nat)
  | validation (validationState : ValidationState) (phase : Phase)
deriving DecidableEq, Repr

structure EscalationContext where
  trigger : Trigger
  failedPhase : Phase
  attemptCount : Nat
  lastError : Option String
  options : List String
  contextInfo : EscalationInfo
deriving DecidableEq, Repr

namespace SessionManager

/-- Method `SessionManager.getFileHistory` from `src/session/SessionManager.ts`. -/
def getFileHistory (st : Option SessionState) (filePath : String) : FileHistory :=
  match st with
  | none => { hasBeenRead := false, hasBeenModified := false, firstReadAt := none, lastModifiedAt := none }
  | some s =>
    (lookupStore filePath s.fileHistory).getD
      { hasBeenRead := false, hasBeenModified := false, firstReadAt := none, lastModifiedAt := none }

/-- Method `SessionManager.updatePhase`: marks the current phase completed (when it
differs from the new phase and is not already completed) and moves on. -/
def updatePhase (phase : Phase) : Option SessionState → Option SessionState
  | none => none
  | some s =>
    let completed :=
      if s.currentPhase ≠ phase ∧ s.currentPhase ∉ s.completedPhases
      then s.completedPhases ++ [s.currentPhase]
      else s.completedPhases
    some { s with
      currentPhase := phase,
      completedPhases := completed,
      metrics := { s.metrics with phasesCompleted := completed.length } }

/-- Method `SessionManager.recordPhaseOutput`: upserts into `phaseOutputs`. -/
def recordPhaseOutput (now : Nat) (phase : Phase) (output : EnrichedOutput) :
    Option SessionState → Option SessionState
  | none => none
  | some s =>
    let phaseOutput : PhaseOutputRecord :=
      { phase := phase, completedAt := now, duration := now - s.startedAt, output := output }
    some { s with phaseOutputs := setStore phase phaseOutput s.phaseOutputs }

/-- Method `SessionManager.recordFileRead`. -/
def recordFileRead (now : Nat) (filePath : String) : Option SessionState → Option SessionState
  | none => none
  | some s =>
    let existing := (lookupStore filePath s.fileHistory).getD
      { hasBeenRead := false, hasBeenModified := false, firstReadAt := none, lastModifiedAt := none }
    some { s with
      fileHistory := setStore filePath
        { existing with hasBeenRead := true, firstReadAt := some (existing.firstReadAt.getD now) }
        s.fileHistory,
      metrics := { s.metrics with filesAnalyzed := s.metrics.filesAnalyzed + 1 } }

/-- Method `SessionManager.recordFileModification`. -/
def recordFileModification (now : Nat) (filePath : String) : Option SessionState → Option SessionState
  | none => none
  | some s =>
    let existing := (lookupStore filePath s.fileHistory).getD
      { hasBeenRead := false, hasBeenModified := false, firstReadAt := none, lastModifiedAt := none }
    some { s with
      fileHistory := setStore filePath
        { existing with hasBeenModified := true, lastModifiedAt := some now }
        s.fileHistory,
      metrics :=
        if existing.hasBeenModified then s.metrics
        else { s.metrics with filesModified := s.metrics.filesModified + 1 } }

/-- Method `SessionManager.updateMetrics` restricted to the two partial updates the
tool layer performs (`lintIssuesFound`, `lintIssuesFixed`). -/
def updateLintIssuesFound (n : Nat) : Option SessionState → Option SessionState
  | none => none
  | some s => some { s with metrics := { s.metrics with lintIssuesFound := n } }

def updateLintIssuesFixed (n : Nat) : Option SessionState → Option SessionState
  | none => none
  | some s => some { s with metrics := { s.metrics with lintIssuesFixed := n } }

/-- Method `SessionManager.incrementIterationCount`; returns the new state and the
returned count (`0` when there is no active session). -/
def incrementIterationCount (phase : Phase) : Option SessionState → Option SessionState × Nat
  | none => (none, 0)
  | some s =>
    let currentCount := (lookupStore phase s.iterationCounts).getD 0
    let newCount := currentCount + 1
    (some { s with iterationCounts := setStore phase newCount s.iterationCounts }, newCount)

/-- Method `SessionManager.getIterationCount`. -/
def getIterationCount (st : Option SessionState) (phase : Phase) : Nat :=
  match st with
  | none => 0
  | some s => (lookupStore phase s.iterationCounts).getD 0

/-- Method `SessionManager.hasReachedIterationLimit`: only `TEST`, `LINT` and
`ITERATE` carry limits; every other phase falls to the `default: false`. -/
def hasReachedIterationLimit (st : Option SessionState) (phase : Phase) : Bool :=
  match st with
  | none => false
  | some s =>
    match s.workflowConfig with
    | none => false
    | some cfg =>
      let currentCount := getIterationCount st phase
      match phase with
      | .TEST => cfg.iterationLimits.TEST ≤ currentCount
      | .LINT => cfg.iterationLimits.LINT ≤ currentCount
      | .ITERATE => cfg.iterationLimits.ITERATE ≤ currentCount
      | _ => false

/-- Method `SessionManager.setValidationState`. -/
def setValidationState (phase : Phase) (state : ValidationState) :
    Option SessionState → Option SessionState
  | none => none
  | some s => some { s with validationStates := setStore phase state s.validationStates }

/-- Method `SessionManager.getValidationState`. -/
def getValidationState (st : Option SessionState) (phase : Phase) : Option ValidationState :=
  match st with
  | none => none
  | some s => lookupStore phase s.validationStates

/-- Method `SessionManager.shouldEscalateToUserInput`: the iteration-limit trigger is
checked first, then repeated validation failure (`attempts >= 3`). -/
def shouldEscalateToUserInput (st : Option SessionState) (phase : Phase) (error : Option String) :
    Option EscalationContext :=
  match st with
  | none => none
  | some s =>
    match s.workflowConfig with
    | none => none
    | some cfg =>
      let config := cfg.escalationTriggers
      let iterationCount := getIterationCount st phase
      if config.escalateOnIterationLimit = true ∧ hasReachedIterationLimit st phase = true then
        some {
          trigger := .iteration_limit,
          failedPhase := phase,
          attemptCount := iterationCount,
          lastError := error,
          options := [
            "Continue with " ++ toString iterationCount ++ " more " ++ phase.str ++ " iterations",
            "Skip to next phase",
            "Modify requirements",
            "Request human intervention"],
          contextInfo := .iterLimit cfg.iterationLimits phase iterationCount }
      else
        match getValidationState st phase with
        | some validationState =>
          if config.escalateOnErrors = true ∧ 3 ≤ validationState.attempts then
            some {
              trigger := .validation_failure,
              failedPhase := phase,
              attemptCount := validationState.attempts,
              lastError := error,
              options := [
                "Modify validation criteria",
                "Skip validation for this phase",
                "Request human review",
                "Reset and try again"],
              contextInfo := .validation validationState phase }
          else none
        | none => none

end SessionManager

structure ValidationCriteria where
  minimumRequirements : List (String × ReqExpected)
  blockingMessages : List String
  expectedFiles : List String
  selfCheckQuestions : List String
  completionCriteria : List String
  cannotProceedUntil : List String
deriving DecidableEq, Repr

/-- Default criteria for phases without a specialised entry
(`getDefaultValidationCriteria` in `src/tools/validation.ts`). -/
def getDefaultValidationCriteria (_outputDir : String) : ValidationCriteria where
  minimumRequirements := [("workCompleted", .bool true), ("documented", .bool true)]
  blockingMessages := ["⛔ Phase work not completed", "⛔ Phase not documented"]
  expectedFiles := []
  selfCheckQuestions :=
    ["Have I completed the required phase work?", "Have I documented the phase results?"]
  completionCriteria := ["Phase work completed", "Results documented"]
  cannotProceedUntil := ["All requirements met"]

/-- Function `getValidationCriteriaForPhase` from `src/tools/validation.ts`; the source
builds a `Record<Phase, ValidationCriteria>` and indexes it, which is the same
as this per-phase match. -/
def getValidationCriteriaForPhase (phase : Phase) (outputDir : String) : ValidationCriteria :=
  match phase with
  | .AUDIT_INVENTORY =>
    { minimumRequirements := [
        ("responsibilitiesIdentified", .bool true),
        ("architecturalPrinciplesAnalyzed", .bool true),
        ("dependenciesMapped", .bool true),
        ("targetFileRead", .bool true),
        ("changesIdentified", .num 10),
        ("impactAnalyzed", .bool true),
        ("risksAssessed", .bool true),
        ("prioritiesSet", .bool true),
        ("outputFilesCreated", .num 5)],
      blockingMessages := [
        "⛔ Target file has not been read completely",
        "⛔ Insufficient responsibilities identified",
        "⛔ Architectural principles analysis incomplete",
        "⛔ Dependency mapping not completed",
        "⛔ Insufficient changes identified (need minimum 10)",
        "⛔ Impact analysis not completed",
        "⛔ Risk assessment missing",
        "⛔ Priority ordering not established",
        "⛔ Required output files not created"],
      expectedFiles := [
        outputDir ++ "/01-audit-findings.md",
        outputDir ++ "/01-audit-dependency-diagram.md",
        outputDir ++ "/01-audit-principle-analysis.json",
        outputDir ++ "/02-inventory-changes.json",
        outputDir ++ "/02-inventory-impact.md"],
      selfCheckQuestions := [
        "Have I read the target file completely?",
        "Have I identified distinct responsibilities and concerns?",
        "Have I analyzed architectural principles based on user/project context?",
        "Have I created a dependency diagram?",
        "Have I identified at least 10 specific changes?",
        "Have I analyzed the impact of each change?",
        "Have I assessed risks and dependencies?",
        "Have I created priority ordering?",
        "Have I created all 5 required output files?"],
      completionCriteria := [
        "Target file read and analyzed",
        "Responsibilities and concerns documented",
        "Architectural principles analyzed based on context",
        "Dependency diagram created",
        "Minimum 10 changes cataloged",
        "Impact analysis complete",
        "Risk assessment documented",
        "Priority ordering established",
        "All output files generated"],
      cannotProceedUntil := [
        "All validation criteria met",
        "Required files created",
        "Self-check questions answered positively"] }
  | .WRITE_OR_REFACTOR =>
    { minimumRequirements := [
        ("filesModified", .bool true),
        ("changesDocumented", .bool true),
        ("planFollowed", .bool true),
        ("safetyRuleObserved", .bool true),
        ("outputFilesCreated", .num 2)],
      blockingMessages := [
        "⛔ Files not read before modification (SAFETY VIOLATION)",
        "⛔ Changes not documented comprehensively",
        "⛔ Implementation plan not followed",
        "⛔ Required documentation not created"],
      expectedFiles := [
        outputDir ++ "/03-write-progress.md",
        outputDir ++ "/03-write-changes.json"],
      selfCheckQuestions := [
        "Have I read all files before modifying them?",
        "Have I implemented the planned changes?",
        "Have I documented all modifications?",
        "Have I created required output files?"],
      completionCriteria := [
        "All planned changes implemented",
        "Safety rules followed",
        "Changes documented",
        "Output files created"],
      cannotProceedUntil := [
        "Implementation complete",
        "Safety compliance verified",
        "Documentation complete"] }
  | .TEST =>
    { minimumRequirements := [
        ("testsExecuted", .bool true),
        ("resultsDocumented", .bool true),
        ("commandsRecorded", .bool true),
        ("outputFilesCreated", .num 2)],
      blockingMessages := [
        "⛔ Test suite not executed",
        "⛔ Test results not documented",
        "⛔ Test commands not recorded",
        "⛔ Required output files missing"],
      expectedFiles := [
        outputDir ++ "/04-test-results.md",
        outputDir ++ "/04-test-metrics.json"],
      selfCheckQuestions := [
        "Have I executed the complete test suite?",
        "Have I documented all test results?",
        "Have I recorded test execution commands?",
        "Have I created required output files?"],
      completionCriteria := [
        "Test suite executed",
        "Results documented",
        "Commands recorded",
        "Output files created"],
      cannotProceedUntil := [
        "Tests completed",
        "Documentation complete",
        "Files created"] }
  | .LINT =>
    { minimumRequirements := [
        ("lintersExecuted", .bool true),
        ("resultsDocumented", .bool true),
        ("errorsAnalyzed", .bool true),
        ("outputFilesCreated", .num 1)],
      blockingMessages := [
        "⛔ Linters not executed",
        "⛔ Results not documented",
        "⛔ Errors not analyzed",
        "⛔ Required output file missing"],
      expectedFiles := [outputDir ++ "/05-lint-results.md"],
      selfCheckQuestions := [
        "Have I run all relevant linters?",
        "Have I documented all results?",
        "Have I analyzed errors and warnings?",
        "Have I created the output file?"],
      completionCriteria := [
        "Linters executed",
        "Results documented",
        "Analysis complete",
        "Output file created"],
      cannotProceedUntil := [
        "Quality checks complete",
        "Documentation complete"] }
  | _ => getDefaultValidationCriteria outputDir

/-- JavaScript `actualValue >= expected` for a possibly-undefined value
(`undefined >= n` is false; booleans coerce to 0/1). -/
def jsGE (actual : Option ReqValue) (expected : Int) : Bool :=
  match actual with
  | some (.num n) => expected ≤ n
  | some (.bool b) => expected ≤ (if b then (1 : Int) else 0)
  | none => false

/-- JavaScript `!!actualValue`. -/
def jsTruthy : Option ReqValue → Bool
  | some (.num n) => !decide (n = 0)
  | some (.bool b) => b
  | none => false

/-- String rendering of `actualValue` in pass/fail messages. -/
def reqValueStr : Option ReqValue → String
  | some (.num n) => toString n
  | some (.bool b) => if b then "true" else "false"
  | none => "undefined"

/-- String rendering of `actualValue || 0` in failure messages. -/
def reqValueOrZeroStr : Option ReqValue → String
  | some (.num n) => if n = 0 then "0" else toString n
  | some (.bool b) => if b then "true" else "0"
  | none => "0"

/-- The `minimumRequirements` loop of `performPhaseValidation`: returns the
`(passed, failed, blockingMessages)` contributions in iteration order. -/
def reqCheck (completedWork : List (String × ReqValue)) :
    List (String × ReqExpected) → List String × List String × List String
  | [] => ([], [], [])
  | (requirement, expectedValue) :: rest =>
    let (p, f, b) := reqCheck completedWork rest
    let actualValue := lookupStore requirement completedWork
    match expectedValue with
    | .num n =>
      if jsGE actualValue n then
        ((requirement ++ ": " ++ reqValueStr actualValue ++ " (meets minimum " ++ toString n ++ ")") :: p, f, b)
      else
        (p, (requirement ++ ": " ++ reqValueOrZeroStr actualValue ++ " (need minimum " ++ toString n ++ ")") :: f,
         ("⛔ " ++ requirement ++ " insufficient: need " ++ toString n ++ ", have " ++ reqValueOrZeroStr actualValue) :: b)
    | .bool expected =>
      if jsTruthy actualValue = expected then
        ((requirement ++ ": completed") :: p, f, b)
      else
        (p, (requirement ++ ": not completed") :: f, ("⛔ " ++ requirement ++ " not completed") :: b)

/-- The `expectedFiles` loop of `performPhaseValidation`: returns the
`(passed, failed, blockingMessages, nextSteps)` contributions in order. -/
def fileCheck (createdFiles : List String) :
    List String → List String × List String × List String × List String
  | [] => ([], [], [], [])
  | expectedFile :: rest =>
    let (p, f, b, n) := fileCheck createdFiles rest
    if expectedFile ∈ createdFiles then
      (("File created: " ++ expectedFile) :: p, f, b, n)
    else
      (p, ("Missing file: " ++ expectedFile) :: f,
       ("⛔ Required file not created: " ++ expectedFile) :: b,
       ("Create file: " ++ expectedFile) :: n)

structure ValidationOutcome where
  isComplete : Bool
  passed : List String
  failed : List String
  blockingMessages : List String
  nextSteps : List String
deriving DecidableEq, Repr

/-- Function `performPhaseValidation` from `src/tools/validation.ts`. -/
def performPhaseValidation (completedWork : List (String × ReqValue)) (createdFiles : List String)
    (criteria : ValidationCriteria) : ValidationOutcome :=
  let (p1, f1, b1) := reqCheck completedWork criteria.minimumRequirements
  let (p2, f2, b2, n2) := fileCheck createdFiles criteria.expectedFiles
  let passed := p1 ++ p2
  let failed := f1 ++ f2
  let blockingMessages := b1 ++ b2
  let nextSteps := n2
  let blockingMessages :=
    if 0 < failed.length then blockingMessages ++ criteria.blockingMessages else blockingMessages
  let nextSteps :=
    if 0 < failed.length then
      nextSteps ++ ["Review self-check questions", "Complete failed requirements", "Re-run validation"]
    else nextSteps
  { isComplete := failed.length = 0,
    passed := passed,
    failed := failed,
    blockingMessages := dedupKeepFirst blockingMessages,
    nextSteps := dedupKeepFirst nextSteps }

/-- JavaScript `selectedPhases.indexOf(p)`, as an `Option` instead of -1. -/
def phaseIndexOf (l : List Phase) (p : Phase) : Option Nat :=
  match l with
  | [] => none
  | a :: rest =>
    if a = p then some 0
    else (phaseIndexOf rest p).map (· + 1)

/-- Function `getNextPhaseRecommendation` from `src/tools/validation.ts`. -/
def getNextPhaseRecommendation (currentPhase : Phase) (session : SessionState) : String :=
  let selectedPhases :=
    match session.workflowConfig with
    | some cfg => cfg.selectedPhases
    | none => [.AUDIT_INVENTORY, .WRITE_OR_REFACTOR, .TEST, .LINT, .PRESENT]
  match phaseIndexOf selectedPhases currentPhase with
  | none => "Workflow complete! Use present_guidance if not already done."
  | some currentIndex =>
    if currentIndex = selectedPhases.length - 1 then
      "Workflow complete! Use present_guidance if not already done."
    else
      match selectedPhases.get? (currentIndex + 1) with
      | some nextPhase =>
        "Use " ++ strToLower nextPhase.str ++ "_guidance to proceed to " ++ nextPhase.str ++ " phase"
      | none => "Workflow complete! Use present_guidance if not already done."

/-- The `ValidationResult` returned by `validate_action`. -/
structure ValidationResult where
  allowed : Bool
  error : Option String
  reason : Option String
  resolution : Option String
  currentPhase : Option Phase
  reminder : Option String
deriving DecidableEq, Repr

/-- Function `handleValidateAction` from `src/tools/validation.ts`.

Modelled from the spec: `isModificationAction` lives in `src/utils/helpers.ts`,
which is not among the sources; per the spec the Safety Gate classifies actions
as modifications "by a caller-supplied/configured classifier, not hardcoded to
any tool name", so the classifier is taken as a parameter `isModification`. -/
def handleValidateAction (isModification : String → Bool) (now : Nat)
    (action targetFile : String) (st : Option SessionState) :
    ValidationResult × Option SessionState :=
  let fileHistory := SessionManager.getFileHistory st targetFile
  if isModification action = true ∧ fileHistory.hasBeenRead = false then
    ({ allowed := false,
       error := some "SAFETY VIOLATION: Cannot modify a file before reading it",
       reason := some "This prevents accidental data loss and ensures informed changes",
       resolution := some ("First read the file \"" ++ targetFile ++ "\" using any file reading tool, then you can modify it"),
       currentPhase := none,
       reminder := none }, st)
  else
    let st' :=
      if strIncludes (strToLower action) "read" = true then
        SessionManager.recordFileRead now targetFile st
      else if isModification action = true then
        SessionManager.recordFileModification now targetFile st
      else st
    ({ allowed := true,
       error := none,
       reason := none,
       resolution := none,
       currentPhase := st.map SessionState.currentPhase,
       reminder := some (match st with
         | some s => "You are in " ++ s.currentPhase.str ++ " phase. Check " ++
             strToLower s.currentPhase.str ++ "_guidance for recommendations."
         | none => "No active session. Consider starting with plan_workflow or build_custom_workflow.") },
     st')

structure ValidatePhaseParams where
  phase : Phase
  completedWork : List (String × ReqValue)
  createdFiles : Option (List String)
deriving DecidableEq, Repr

/-- The shapes of the objects `handleValidatePhaseCompletion` returns:
no-session error, escalation (`isValid: false, escalationRequired: true`),
plain validation failure (`isValid: false`) or success
(`isValid: true, canProceed: true`). -/
inductive ValidatePhaseResponse where
  | noSession
  | escalation (escalationContext : EscalationContext) (validationAttempts : Nat)
      (failedRequirements : List String)
  | failed (validationAttempts : Nat) (passedRequirements failedRequirements
      blockingMessages nextSteps selfCheckQuestions : List String)
  | passed (validationAttempts : Nat) (completedRequirements : List String) (nextPhase : String)
deriving DecidableEq, Repr

/-- The `isValid` field of the returned object. -/
def ValidatePhaseResponse.isValid : ValidatePhaseResponse → Bool
  | .passed _ _ _ => true
  | _ => false

/-- The `canProceed` field (present and true only on success). -/
def ValidatePhaseResponse.canProceed : ValidatePhaseResponse → Bool
  | .passed _ _ _ => true
  | _ => false

/-- The `escalationRequired` field (present and true only on escalation). -/
def ValidatePhaseResponse.escalationRequired : ValidatePhaseResponse → Bool
  | .escalation _ _ _ => true
  | _ => false

/-- The `escalationContext.trigger` field, when the response is an escalation. -/
def ValidatePhaseResponse.escalationTrigger : ValidatePhaseResponse → Option Trigger
  | .escalation ctx _ _ => some ctx.trigger
  | _ => none

/-- The `escalationContext.attemptCount` field, when the response is an escalation. -/
def ValidatePhaseResponse.escalationAttemptCount : ValidatePhaseResponse → Option Nat
  | .escalation ctx _ _ => some ctx.attemptCount
  | _ => none

/-- The output directory used to derive criteria:
`session.workflowConfig?.outputPreferences.outputDirectory || "workflow-output"`. -/
def outputDirOf (session : SessionState) : String :=
  match session.workflowConfig with
  | some cfg =>
    if cfg.outputPreferences.outputDirectory = "" then "workflow-output"
    else cfg.outputPreferences.outputDirectory
  | none => "workflow-output"

/-- Function `handleValidatePhaseCompletion` from `src/tools/validation.ts`: bumps the
per-phase validation attempts, stores the refreshed validation state, then
checks escalation *before* the pass/fail outcome. -/
def handleValidatePhaseCompletion (now : Nat) (params : ValidatePhaseParams)
    (st : Option SessionState) : ValidatePhaseResponse × Option SessionState :=
  match st with
  | none => (.noSession, none)
  | some session =>
    let validationState :=
      (SessionManager.getValidationState (some session) params.phase).getD
        { isComplete := false, completedRequirements := [], failedRequirements := [],
          lastValidatedAt := now, attempts := 0 }
    let validationState :=
      { validationState with attempts := validationState.attempts + 1, lastValidatedAt := now }
    let criteria := getValidationCriteriaForPhase params.phase (outputDirOf session)
    let validationResults :=
      performPhaseValidation params.completedWork (params.createdFiles.getD []) criteria
    let validationState :=
      { validationState with
        completedRequirements := validationResults.passed,
        failedRequirements := validationResults.failed,
        isComplete := validationResults.isComplete }
    let st1 := SessionManager.setValidationState params.phase validationState (some session)
    let response : ValidatePhaseResponse :=
      match SessionManager.shouldEscalateToUserInput st1 params.phase none with
      | some escalationContext =>
        .escalation escalationContext validationState.attempts validationResults.failed
      | none =>
        if validationResults.isComplete = false then
          .failed validationState.attempts validationResults.passed validationResults.failed
            validationResults.blockingMessages validationResults.nextSteps criteria.selfCheckQuestions
        else
          .passed validationState.attempts validationResults.passed
            (getNextPhaseRecommendation params.phase session)
    (response, st1)

/-- Function `validatePhaseSpecificContent` from `src/tools/phaseOutput.ts`: a loose
keyword check against the lowercased content. -/
def validatePhaseSpecificContent (phase : Phase) (artifact : OutputArtifact) : Bool :=
  let content := strToLower artifact.content
  match phase with
  | .AUDIT_INVENTORY =>
    (strIncludes content "audit" || strIncludes content "analysis" || strIncludes content "dependencies")
    || (strIncludes content "inventory" || strIncludes content "changes" || strIncludes content "modifications")
    || (decide (artifact.format = .json) && (strIncludes content "changes" || strIncludes content "files"))
  | .COMPARE_ANALYZE =>
    strIncludes content "approach" || strIncludes content "option"
    || strIncludes content "comparison" || strIncludes content "pros" || strIncludes content "cons"
    || strIncludes content "recommend"
  | .QUESTION_DETERMINE =>
    strIncludes content "question" || strIncludes content "assumption"
    || strIncludes content "plan" || strIncludes content "step" || strIncludes content "implement"
  | .WRITE_OR_REFACTOR =>
    strIncludes content "implement" || strIncludes content "change" || strIncludes content "modify"
    || strIncludes content "file" || strIncludes content "code" || strIncludes content "refactor"
    || strIncludes content "write" || strIncludes content "create"
  | .TEST =>
    strIncludes content "test" || strIncludes content "pass" || strIncludes content "fail"
    || strIncludes content "result" || strIncludes content "coverage" || strIncludes content "metric"
  | .LINT =>
    strIncludes content "lint" || strIncludes content "error" || strIncludes content "warning"
    || strIncludes content "quality" || strIncludes content "issue" || strIncludes content "fix"
  | .ITERATE =>
    strIncludes content "fix" || strIncludes content "resolve" || strIncludes content "improve"
    || strIncludes content "issue" || strIncludes content "iteration" || strIncludes content "update"
  | .PRESENT =>
    strIncludes content "summary" || strIncludes content "complete" || strIncludes content "result"
    || strIncludes content "recommend" || strIncludes content "future" || strIncludes content "overview"
  | _ => true

/-- The per-artifact validation loop body of `handlePhaseOutput`: content
length, JSON well-formedness (`jsonValid` standing for `JSON.parse` not
throwing) and the phase-specific keyword check each may add one error. -/
def artifactErrorList (jsonValid : String → Bool) (phase : Phase) (artifact : OutputArtifact) :
    List String :=
  (if artifact.content = "" ∨ (strTrim artifact.content).length < 10 then
    ["Artifact \"" ++ artifact.path ++ "\": Content too short or empty (minimum 10 characters)"]
  else [])
  ++ (if artifact.format = .json ∧ jsonValid artifact.content = false then
    ["Artifact \"" ++ artifact.path ++ "\": Invalid JSON format"]
  else [])
  ++ (if validatePhaseSpecificContent phase artifact = false then
    ["Artifact \"" ++ artifact.path ++ "\": Does not contain expected " ++ phase.str ++ " content"]
  else [])

structure PhaseOutputParams where
  phase : Phase
  output : OutputObject
  outputArtifacts : List OutputArtifact
deriving DecidableEq, Repr

/-- The shapes of the objects `handlePhaseOutput` returns. -/
inductive PhaseOutputResponse where
  | noSession
  | noArtifacts
  | validationFailed (validationErrors : List String)
  | recorded (phase : Phase) (artifactsValidated : Nat)
      (artifacts : List (String × ArtifactFormat × String))
deriving DecidableEq, Repr

/-- The `recorded` field of the returned object (`true` only on success). -/
def PhaseOutputResponse.isRecorded : PhaseOutputResponse → Bool
  | .recorded _ _ _ => true
  | _ => false

/-- The successful tail of `handlePhaseOutput`, acting on the (present)
session object exactly as the source mutates it: record the enriched output,
append the phase to `completedPhases` if absent, and update lint metrics for
the LINT/ITERATE phases. -/
def phaseOutputApplyS (now : Nat) (today : String) (params : PhaseOutputParams)
    (session : SessionState) : SessionState :=
  let enrichedOutput : EnrichedOutput :=
    { base := params.output, artifacts := params.outputArtifacts, validatedAt := today }
  let phaseOutput : PhaseOutputRecord :=
    { phase := params.phase, completedAt := now, duration := now - session.startedAt,
      output := enrichedOutput }
  let s1 := { session with phaseOutputs := setStore params.phase phaseOutput session.phaseOutputs }
  let s2 :=
    if params.phase ∈ s1.completedPhases then s1
    else { s1 with completedPhases := s1.completedPhases ++ [params.phase] }
  let s3 :=
    if params.phase = .LINT then
      match params.output.errors with
      | some errs => { s2 with metrics := { s2.metrics with lintIssuesFound := errs.length } }
      | none => s2
    else s2
  if params.phase = .ITERATE then
    match params.output.fixesApplied with
    | some fixes => { s3 with metrics := { s3.metrics with lintIssuesFixed := fixes.length } }
    | none => s3
  else s3

/-- Function `handlePhaseOutput` from `src/tools/phaseOutput.ts`. -/
def handlePhaseOutput (jsonValid : String → Bool) (now : Nat) (today : String)
    (params : PhaseOutputParams) (st : Option SessionState) :
    PhaseOutputResponse × Option SessionState :=
  match st with
  | none => (.noSession, none)
  | some session =>
    if params.outputArtifacts.length = 0 then
      (.noArtifacts, some session)
    else
      let validationErrors :=
        (params.outputArtifacts.map (artifactErrorList jsonValid params.phase)).flatten
      if 0 < validationErrors.length then
        (.validationFailed validationErrors, some session)
      else
        (.recorded params.phase params.outputArtifacts.length
          (params.outputArtifacts.map fun a => (a.path, a.format, a.description)),
         some (phaseOutputApplyS now today params session))

/-- The fixed phase→number table of `getPhaseNumber` in
`src/utils/fileSystem.ts`. -/
def phaseMapLookup (phase : String) : Option Nat :=
  if phase = "PLANNING" then some 0
  else if phase = "AUDIT_INVENTORY" then some 1
  else if phase = "COMPARE_ANALYZE" then some 2
  else if phase = "QUESTION_DETERMINE" then some 3
  else if phase = "WRITE_OR_REFACTOR" then some 4
  else if phase = "TEST" then some 5
  else if phase = "LINT" then some 6
  else if phase = "ITERATE" then some 7
  else if phase = "PRESENT" then some 8
  else none

/-- Function `getPhaseNumber`: the source computes `phaseMap[phase] || 99`, and in
JavaScript `0 || 99` evaluates to `99` because `0` is falsy, so the `PLANNING`
entry of the table is *not* returned. -/
def getPhaseNumber (phase : String) : Nat :=
  match phaseMapLookup phase with
  | some n => if n = 0 then 99 else n
  | none => 99

/-- JavaScript `padStart(2)` with zeros on a number rendered as a string. -/
def padStart2 (s : String) : String :=
  if s.length = 0 then "00"
  else if s.length = 1 then "0" ++ s
  else s

structure NumberedFileConfig where
  phase : String
  outputDirectory : String
  extension : Option String
  includeDate : Option Bool
deriving DecidableEq, Repr

/-- Function `generateNumberedFileName` from `src/utils/fileSystem.ts`; `today` stands
for the date part of `new Date().toISOString()`. -/
def generateNumberedFileName (config : NumberedFileConfig) (today : String) : String :=
  let phaseNumber := getPhaseNumber config.phase
  let phaseName := strReplaceUnderscores (strToLower config.phase)
  let extension :=
    match config.extension with
    | some e => if e = "" then "md" else e
    | none => "md"
  let fileName := padStart2 (toString phaseNumber) ++ "-" ++ phaseName
  let fileName := if config.includeDate ≠ some false then fileName ++ "-" ++ today else fileName
  fileName ++ "." ++ extension

/-- One call into the core while a session may be active: the Session Store
mutators and the three tool handlers. `endSession`/`startSession` are
deliberately absent — sequences of these operations stay within one session. -/
inductive Op where
  | updatePhase (phase : Phase)
  | recordPhaseOutput (now : Nat) (phase : Phase) (output : EnrichedOutput)
  | recordFileRead (now : Nat) (path : String)
  | recordFileModification (now : Nat) (path : String)
  | incrementIterationCount (phase : Phase)
  | setValidationState (phase : Phase) (state : ValidationState)
  | validateAction (isModification : String → Bool) (now : Nat) (action targetFile : String)
  | validatePhaseCompletion (now : Nat) (params : ValidatePhaseParams)
  | phaseOutput (jsonValid : String → Bool) (now : Nat) (today : String) (params : PhaseOutputParams)

/-- The state transition performed by one operation. -/
def Op.apply : Op → Option SessionState → Option SessionState
  | .updatePhase phase, st => SessionManager.updatePhase phase st
  | .recordPhaseOutput now phase output, st => SessionManager.recordPhaseOutput now phase output st
  | .recordFileRead now path, st => SessionManager.recordFileRead now path st
  | .recordFileModification now path, st => SessionManager.recordFileModification now path st
  | .incrementIterationCount phase, st => (SessionManager.incrementIterationCount phase st).1
  | .setValidationState phase state, st => SessionManager.setValidationState phase state st
  | .validateAction isModification now action targetFile, st =>
    (handleValidateAction isModification now action targetFile st).2
  | .validatePhaseCompletion now params, st => (handleValidatePhaseCompletion now params st).2
  | .phaseOutput jsonValid now today params, st => (handlePhaseOutput jsonValid now today params st).2

/-- Applying a sequence of operations in order. -/
def applyOps (ops : List Op) (st : Option SessionState) : Option SessionState :=
  match ops with
  | [] => st
  | op :: rest => applyOps rest (op.apply st)

/-- The `completedPhases` list of a possibly-absent session. -/
def completedOf (st : Option SessionState) : List Phase :=
  match st with
  | none => []
  | some s => s.completedPhases

/-- Zeroed metrics, as `initializeMetrics` produces at session start. -/
def initialMetrics : WorkflowMetrics :=
  { filesAnalyzed := 0, filesModified := 0, lintIssuesFound := 0,
    lintIssuesFixed := 0, phasesCompleted := 0 }

/-- A concrete workflow configuration for the scenario runs: the Scenario C
`iterationLimits.LINT = 2` with both escalation triggers enabled. -/
def scenarioConfig : WorkflowConfiguration :=
  { selectedPhases := [.AUDIT_INVENTORY, .WRITE_OR_REFACTOR, .TEST, .LINT, .PRESENT],
    iterationLimits :=
      { TEST := 10, LINT := 2, ITERATE := 15, maxTotalDuration := none, maxPhaseAttempts := none },
    outputPreferences :=
      { formats := [.markdown], realTimeUpdates := true, generateDiagrams := false,
        includeCodeSnippets := false, outputDirectory := "workflow-output",
        createProgressReport := false, createPhaseArtifacts := true },
    userCheckpoints :=
      { beforeMajorChanges := false, afterFailedIterations := false,
        beforeFinalPresentation := false, customCheckpoints := none },
    escalationTriggers :=
      { enableUserInput := true, escalateOnIterationLimit := true,
        escalateOnErrors := true, escalateOnTime := false } }

/-- A fresh session configured with `scenarioConfig`, sitting in the LINT phase. -/
def scenarioSession : SessionState :=
  { id := "s1", taskDescription := "task", startedAt := 0, currentPhase := .LINT,
    completedPhases := [], phaseOutputs := [], fileHistory := [],
    metrics := initialMetrics,
    workflowConfig := some scenarioConfig, iterationCounts := [], validationStates := [] }

/-- A LINT validation submission that fails every requirement. -/
def failingLintParams : ValidatePhaseParams :=
  { phase := .LINT, completedWork := [], createdFiles := none }

/-- The three consecutive failing LINT validation calls of Scenario C. -/
def scenarioCRun1 : ValidatePhaseResponse × Option SessionState :=
  handleValidatePhaseCompletion 0 failingLintParams (some scenarioSession)

def scenarioCRun2 : ValidatePhaseResponse × Option SessionState :=
  handleValidatePhaseCompletion 0 failingLintParams scenarioCRun1.2

def scenarioCRun3 : ValidatePhaseResponse × Option SessionState :=
  handleValidatePhaseCompletion 0 failingLintParams scenarioCRun2.2

/-- The Scenario B artifact: well-formed markdown mentioning "audit" and "changes". -/
def scenarioBArtifact : OutputArtifact :=
  { path := "audit-analysis", format := .markdown,
    description := "Audit and inventory analysis results",
    content := "Full audit of the repository and the changes planned" }

def scenarioBParams : PhaseOutputParams :=
  { phase := .AUDIT_INVENTORY, output := { errors := none, fixesApplied := none },
    outputArtifacts := [scenarioBArtifact] }

/-- The value a `SessionManager` method hands back to its caller: the void
mutators return `undefined` on every path (modelled as `undef`), and
`incrementIterationCount` returns a number. -/
inductive MutatorReturn where
  | undef
  | num (n : Nat)
deriving DecidableEq, Repr

/-- Method `updatePhase` together with its (void) return value: both the
`if (!this.session) return;` path and the success path return `undefined`. -/
def SessionManager.updatePhaseCall (phase : Phase) (st : Option SessionState) :
    Option SessionState × MutatorReturn :=
  (SessionManager.updatePhase phase st, .undef)

def SessionManager.recordPhaseOutputCall (now : Nat) (phase : Phase) (output : EnrichedOutput)
    (st : Option SessionState) : Option SessionState × MutatorReturn :=
  (SessionManager.recordPhaseOutput now phase output st, .undef)

def SessionManager.recordFileReadCall (now : Nat) (filePath : String) (st : Option SessionState) :
    Option SessionState × MutatorReturn :=
  (SessionManager.recordFileRead now filePath st, .undef)

def SessionManager.recordFileModificationCall (now : Nat) (filePath : String)
    (st : Option SessionState) : Option SessionState × MutatorReturn :=
  (SessionManager.recordFileModification now filePath st, .undef)

def SessionManager.setValidationStateCall (phase : Phase) (state : ValidationState)
    (st : Option SessionState) : Option SessionState × MutatorReturn :=
  (SessionManager.setValidationState phase state st, .undef)

/-- Method `incrementIterationCount` returns `0` when no session is active and the
new (positive) count otherwise. -/
def SessionManager.incrementIterationCountCall (phase : Phase) (st : Option SessionState) :
    Option SessionState × MutatorReturn :=
  ((SessionManager.incrementIterationCount phase st).1,
   .num (SessionManager.incrementIterationCount phase st).2)

/-- A session with three recorded LINT validation attempts (for exercising the
repeated-validation-failure escalation trigger). -/
def escalateSession : SessionState :=
  { scenarioSession with
    validationStates := [(.LINT,
      { isComplete := false, completedRequirements := [], failedRequirements := ["x"],
        lastValidatedAt := 0, attempts := 3 })] }

/-- An artifact declared `json` whose content does not parse. -/
def badJsonArtifact : OutputArtifact :=
  { path := "bad", format := .json, description := "d",
    content := "audit changes but not json" }

def badJsonParams : PhaseOutputParams :=
  { phase := .AUDIT_INVENTORY, output := { errors := none, fixesApplied := none },
    outputArtifacts := [badJsonArtifact] }

/-- A JSON oracle accepting exactly the literal string `null` (a stand-in
interpretation of `JSON.parse` for concrete witnesses). -/
def nullOnlyJson (c : String) : Bool := decide (c = "null")

/-- Lexicographic order on character lists, by code point. -/
def listLexLt : List Char → List Char → Bool
  | [], [] => false
  | [], _ :: _ => true
  | _ :: _, [] => false
  | a :: as, b :: bs =>
    if a.toNat < b.toNat then true
    else if b.toNat < a.toNat then false
    else listLexLt as bs

/-- Lexicographic (code-point) order on strings, as a file listing sorts. -/
def strLexLt (a b : String) : Bool := listLexLt a.toList b.toList

/-- Follows the wording of the spec (for claim C4): the workflow configuration maps
"a subset of phases" to iteration caps — exactly `TEST`, `LINT` and `ITERATE`
carry a configured limit; every other phase has none. -/
def specIterationLimitFor (limits : IterationLimits) : Phase → Option Nat
  | .TEST => some limits.TEST
  | .LINT => some limits.LINT
  | .ITERATE => some limits.ITERATE
  | _ => none

/-- A session whose COMPARE_ANALYZE validation has already failed twice, used
to exercise the escalation-preempts-success path. -/
def preemptSession : SessionState :=
  { scenarioSession with
    currentPhase := .COMPARE_ANALYZE,
    validationStates := [(.COMPARE_ANALYZE,
      { isComplete := false, completedRequirements := [], failedRequirements := ["x"],
        lastValidatedAt := 0, attempts := 2 })] }

/-- A COMPARE_ANALYZE submission meeting every default minimum requirement. -/
def preemptParams : ValidatePhaseParams :=
  { phase := .COMPARE_ANALYZE,
    completedWork := [("workCompleted", .bool true), ("documented", .bool true)],
    createdFiles := none }

theorem lookupStore_setStore_self {α β : Type} [DecidableEq α] (k : α) (v : β) (l : List (α × β)) :
    lookupStore k (setStore k v l) = some v := by
  induction l with
  | nil => simp [lookupStore, setStore]
  | cons hd tl ih =>
    obtain ⟨k', v'⟩ := hd
    by_cases h : k' = k
    · simp [lookupStore, setStore, h]
    · simp [lookupStore, setStore, h, ih]

theorem lookupStore_setStore_ne {α β : Type} [DecidableEq α] (k k' : α) (v : β) (l : List (α × β))
    (h : k' ≠ k) : lookupStore k (setStore k' v l) = lookupStore k l := by
  induction l with
  | nil => simp [lookupStore, setStore, h]
  | cons hd tl ih =>
    obtain ⟨k'', v''⟩ := hd
    by_cases h2 : k'' = k'
    · subst h2
      simp [lookupStore, setStore, h]
    · by_cases h3 : k'' = k
      · simp [lookupStore, setStore, h2, h3, Ne.symm h]
      · simp [lookupStore, setStore, h2, h3, ih]

/-- The default (absent) file-history entry. -/
def FileHistory.empty : FileHistory :=
  { hasBeenRead := false, hasBeenModified := false, firstReadAt := none, lastModifiedAt := none }

theorem getFileHistory_updatePhase (phase : Phase) (st : Option SessionState) (p : String) :
    SessionManager.getFileHistory (SessionManager.updatePhase phase st) p =
      SessionManager.getFileHistory st p := by
  cases st <;> rfl

theorem getFileHistory_recordPhaseOutput (now : Nat) (phase : Phase) (o : EnrichedOutput)
    (st : Option SessionState) (p : String) :
    SessionManager.getFileHistory (SessionManager.recordPhaseOutput now phase o st) p =
      SessionManager.getFileHistory st p := by
  cases st <;> rfl

theorem getFileHistory_setValidationState (phase : Phase) (v : ValidationState)
    (st : Option SessionState) (p : String) :
    SessionManager.getFileHistory (SessionManager.setValidationState phase v st) p =
      SessionManager.getFileHistory st p := by
  cases st <;> rfl

theorem getFileHistory_incrementIterationCount (phase : Phase) (st : Option SessionState) (p : String) :
    SessionManager.getFileHistory (SessionManager.incrementIterationCount phase st).1 p =
      SessionManager.getFileHistory st p := by
  cases st <;> rfl

theorem getFileHistory_updateLintIssuesFound (n : Nat) (st : Option SessionState) (p : String) :
    SessionManager.getFileHistory (SessionManager.updateLintIssuesFound n st) p =
      SessionManager.getFileHistory st p := by
  cases st <;> rfl

theorem getFileHistory_updateLintIssuesFixed (n : Nat) (st : Option SessionState) (p : String) :
    SessionManager.getFileHistory (SessionManager.updateLintIssuesFixed n st) p =
      SessionManager.getFileHistory st p := by
  cases st <;> rfl

theorem hasBeenRead_recordFileRead (now : Nat) (q p : String) (st : Option SessionState)
    (h : (SessionManager.getFileHistory st p).hasBeenRead = true) :
    (SessionManager.getFileHistory (SessionManager.recordFileRead now q st) p).hasBeenRead = true := by
  cases st with
  | none => simp [SessionManager.getFileHistory] at h
  | some s =>
    by_cases hq : q = p
    · subst hq
      simp [SessionManager.getFileHistory, SessionManager.recordFileRead, lookupStore_setStore_self]
    · simp only [SessionManager.getFileHistory, SessionManager.recordFileRead,
        lookupStore_setStore_ne p q _ _ hq] at h ⊢
      exact h

theorem hasBeenRead_recordFileModification (now : Nat) (q p : String) (st : Option SessionState)
    (h : (SessionManager.getFileHistory st p).hasBeenRead = true) :
    (SessionManager.getFileHistory (SessionManager.recordFileModification now q st) p).hasBeenRead = true := by
  cases st with
  | none => simp [SessionManager.getFileHistory] at h
  | some s =>
    by_cases hq : q = p
    · subst hq
      simp only [SessionManager.getFileHistory, SessionManager.recordFileModification,
        lookupStore_setStore_self]
      simp only [SessionManager.getFileHistory] at h
      simp [h]
    · simp only [SessionManager.getFileHistory, SessionManager.recordFileModification,
        lookupStore_setStore_ne p q _ _ hq] at h ⊢
      exact h

theorem getFileHistory_validatePhaseCompletion (now : Nat) (params : ValidatePhaseParams)
    (st : Option SessionState) (p : String) :
    SessionManager.getFileHistory ((handleValidatePhaseCompletion now params st).2) p =
      SessionManager.getFileHistory st p := by
  cases st <;> rfl

theorem fileHistory_phaseOutputApplyS (now : Nat) (today : String) (params : PhaseOutputParams)
    (session : SessionState) :
    (phaseOutputApplyS now today params session).fileHistory = session.fileHistory := by
  simp only [phaseOutputApplyS]
  repeat' split
  all_goals rfl

theorem getFileHistory_phaseOutput (jsonValid : String → Bool) (now : Nat) (today : String)
    (params : PhaseOutputParams) (st : Option SessionState) (p : String) :
    SessionManager.getFileHistory ((handlePhaseOutput jsonValid now today params st).2) p =
      SessionManager.getFileHistory st p := by
  cases st with
  | none => rfl
  | some s =>
    simp only [handlePhaseOutput]
    split
    · rfl
    · split
      · rfl
      · simp only [SessionManager.getFileHistory, fileHistory_phaseOutputApplyS]

/-- The session-state effect of `handleValidateAction`, written out. -/
theorem validateAction_state (isModification : String → Bool) (now : Nat)
    (action targetFile : String) (st : Option SessionState) :
    (handleValidateAction isModification now action targetFile st).2 =
      if isModification action = true ∧
          (SessionManager.getFileHistory st targetFile).hasBeenRead = false then st
      else if strIncludes (strToLower action) "read" = true then
        SessionManager.recordFileRead now targetFile st
      else if isModification action = true then
        SessionManager.recordFileModification now targetFile st
      else st := by
  simp only [handleValidateAction]
  split <;> rfl

theorem hasBeenRead_validateAction (isModification : String → Bool) (now : Nat)
    (action targetFile p : String) (st : Option SessionState)
    (h : (SessionManager.getFileHistory st p).hasBeenRead = true) :
    (SessionManager.getFileHistory ((handleValidateAction isModification now action targetFile st).2) p).hasBeenRead = true := by
  rw [validateAction_state]
  split
  · exact h
  · split
    · exact hasBeenRead_recordFileRead now targetFile p st h
    · split
      · exact hasBeenRead_recordFileModification now targetFile p st h
      · exact h

/-- Field `fileHistory[p].hasBeenRead` is monotone: no operation inside a session
ever clears the recorded read of a file. -/
theorem hasBeenRead_op_mono (op : Op) (st : Option SessionState) (p : String)
    (h : (SessionManager.getFileHistory st p).hasBeenRead = true) :
    (SessionManager.getFileHistory (op.apply st) p).hasBeenRead = true := by
  cases op with
  | updatePhase phase => rw [Op.apply, getFileHistory_updatePhase]; exact h
  | recordPhaseOutput now phase o => rw [Op.apply, getFileHistory_recordPhaseOutput]; exact h
  | recordFileRead now q => exact hasBeenRead_recordFileRead now q p st h
  | recordFileModification now q => exact hasBeenRead_recordFileModification now q p st h
  | incrementIterationCount phase => rw [Op.apply, getFileHistory_incrementIterationCount]; exact h
  | setValidationState phase v => rw [Op.apply, getFileHistory_setValidationState]; exact h
  | validateAction im now action targetFile => exact hasBeenRead_validateAction im now action targetFile p st h
  | validatePhaseCompletion now params => rw [Op.apply, getFileHistory_validatePhaseCompletion]; exact h
  | phaseOutput j now today params => rw [Op.apply, getFileHistory_phaseOutput]; exact h

theorem hasBeenRead_applyOps_mono (ops : List Op) (st : Option SessionState) (p : String)
    (h : (SessionManager.getFileHistory st p).hasBeenRead = true) :
    (SessionManager.getFileHistory (applyOps ops st) p).hasBeenRead = true := by
  induction ops generalizing st with
  | nil => exact h
  | cons op rest ih => exact ih (op.apply st) (hasBeenRead_op_mono op st p h)

theorem completedOf_recordFileRead (now : Nat) (f : String) (st : Option SessionState) :
    completedOf (SessionManager.recordFileRead now f st) = completedOf st := by
  cases st <;> rfl

theorem completedOf_recordFileModification (now : Nat) (f : String) (st : Option SessionState) :
    completedOf (SessionManager.recordFileModification now f st) = completedOf st := by
  cases st <;> rfl

theorem completedPhases_phaseOutputApplyS (now : Nat) (today : String) (params : PhaseOutputParams)
    (session : SessionState) :
    (params.phase ∈ session.completedPhases ∧
        (phaseOutputApplyS now today params session).completedPhases = session.completedPhases) ∨
      (params.phase ∉ session.completedPhases ∧
        (phaseOutputApplyS now today params session).completedPhases =
          session.completedPhases ++ [params.phase]) := by
  by_cases hmem : params.phase ∈ session.completedPhases
  · left
    refine ⟨hmem, ?_⟩
    simp only [phaseOutputApplyS]
    simp only [hmem, if_true]
    repeat' split
    all_goals rfl
  · right
    refine ⟨hmem, ?_⟩
    simp only [phaseOutputApplyS]
    simp only [hmem, if_false]
    repeat' split
    all_goals rfl

theorem mem_completedPhases_phaseOutputApplyS (now : Nat) (today : String)
    (params : PhaseOutputParams) (session : SessionState) :
    params.phase ∈ (phaseOutputApplyS now today params session).completedPhases := by
  rcases completedPhases_phaseOutputApplyS now today params session with ⟨hmem, h⟩ | ⟨_, h⟩
  · rw [h]; exact hmem
  · rw [h]; simp

/-- Every single operation either leaves `completedPhases` unchanged or appends
one phase that was not yet in it. -/
theorem completedOf_op_step (op : Op) (st : Option SessionState) :
    completedOf (op.apply st) = completedOf st ∨
      ∃ p, p ∉ completedOf st ∧ completedOf (op.apply st) = completedOf st ++ [p] := by
  cases op with
  | updatePhase phase =>
    cases st with
    | none => exact Or.inl rfl
    | some s =>
      simp only [Op.apply, SessionManager.updatePhase]
      split
      · next hcond => exact Or.inr ⟨s.currentPhase, hcond.2, rfl⟩
      · exact Or.inl rfl
  | recordPhaseOutput now phase o => cases st <;> exact Or.inl rfl
  | recordFileRead now f => cases st <;> exact Or.inl rfl
  | recordFileModification now f => cases st <;> exact Or.inl rfl
  | incrementIterationCount phase => cases st <;> exact Or.inl rfl
  | setValidationState phase v => cases st <;> exact Or.inl rfl
  | validateAction im now action targetFile =>
    simp only [Op.apply]
    rw [validateAction_state]
    split
    · exact Or.inl rfl
    · split
      · exact Or.inl (completedOf_recordFileRead now targetFile st)
      · split
        · exact Or.inl (completedOf_recordFileModification now targetFile st)
        · exact Or.inl rfl
  | validatePhaseCompletion now params => cases st <;> exact Or.inl rfl
  | phaseOutput j now today params =>
    cases st with
    | none => exact Or.inl rfl
    | some s =>
      simp only [Op.apply, handlePhaseOutput]
      split
      · exact Or.inl rfl
      · split
        · exact Or.inl rfl
        · rcases completedPhases_phaseOutputApplyS now today params s with ⟨_, h⟩ | ⟨hnm, h⟩
          · exact Or.inl h
          · exact Or.inr ⟨params.phase, hnm, h⟩

theorem completedOf_op_extends (op : Op) (st : Option SessionState) :
    completedOf st <+: completedOf (op.apply st) := by
  rcases completedOf_op_step op st with h | ⟨p, _, h⟩
  · rw [h]
  · rw [h]
    exact ⟨[p], rfl⟩

theorem completedOf_op_nodup (op : Op) (st : Option SessionState)
    (h : (completedOf st).Nodup) : (completedOf (op.apply st)).Nodup := by
  rcases completedOf_op_step op st with heq | ⟨p, hp, heq⟩
  · rwa [heq]
  · rw [heq]
    simp [List.nodup_append, h, hp]

theorem completedOf_applyOps_extends (ops : List Op) (st : Option SessionState) :
    completedOf st <+: completedOf (applyOps ops st) := by
  induction ops generalizing st with
  | nil => exact List.prefix_refl _
  | cons op rest ih => exact (completedOf_op_extends op st).trans (ih (op.apply st))

theorem completedOf_applyOps_nodup (ops : List Op) (st : Option SessionState)
    (h : (completedOf st).Nodup) : (completedOf (applyOps ops st)).Nodup := by
  induction ops generalizing st with
  | nil => exact h
  | cons op rest ih => exact ih (op.apply st) (completedOf_op_nodup op st h)

theorem countP_dropWhile_ws (l : List Char) :
    (l.dropWhile Char.isWhitespace).countP (fun c => !c.isWhitespace) =
      l.countP (fun c => !c.isWhitespace) := by
  conv_rhs => rw [← List.takeWhile_append_dropWhile (p := Char.isWhitespace) (l := l)]
  rw [List.countP_append]
  have hz : (l.takeWhile Char.isWhitespace).countP (fun c => !c.isWhitespace) = 0 := by
    rw [List.countP_eq_zero]
    intro a ha
    have hw := List.mem_takeWhile_imp ha
    simp [hw]
  omega

theorem countP_reverse_eq {α : Type} (q : α → Bool) (l : List α) :
    l.reverse.countP q = l.countP q := by
  induction l with
  | nil => rfl
  | cons a t ih =>
    simp [List.countP_cons, List.countP_append, ih]

theorem countP_trimChars (l : List Char) :
    (trimChars l).countP (fun c => !c.isWhitespace) = l.countP (fun c => !c.isWhitespace) := by
  simp only [trimChars]
  rw [countP_reverse_eq, countP_dropWhile_ws, countP_reverse_eq, countP_dropWhile_ws]

/-- A string has at least as many characters after trimming as it has
non-whitespace characters. -/
theorem nonWhitespace_le_strTrim_length (s : String) :
    s.toList.countP (fun c => !c.isWhitespace) ≤ (strTrim s).length := by
  have h1 : (strTrim s).length = (trimChars s.toList).length := rfl
  rw [h1, ← countP_trimChars s.toList]
  exact List.countP_le_length _

theorem validateAction_allowed_iff (isModification : String → Bool) (now : Nat)
    (action targetFile : String) (st : Option SessionState) :
    (handleValidateAction isModification now action targetFile st).1.allowed = false ↔
      (isModification action = true ∧
        (SessionManager.getFileHistory st targetFile).hasBeenRead = false) := by
  simp only [handleValidateAction]
  split
  · next h => simpa using h
  · next h => simpa using h

/-- C1: Read-before-write safety gate. For a `validate_action` call whose
action the classifier marks as a modification, the call is denied exactly when
`fileHistory[targetFile].hasBeenRead` is false at call time; and once a read of
the file is on record, every later modification request on it within the same
session is allowed, whatever in-session operations happen in between. -/
theorem c1_read_before_write_gate (isModification : String → Bool) (now : Nat)
    (action targetFile : String) (st : Option SessionState)
    (hmod : isModification action = true) :
    ((handleValidateAction isModification now action targetFile st).1.allowed = false ↔
      (SessionManager.getFileHistory st targetFile).hasBeenRead = false) ∧
    (∀ (ops : List Op) (now' : Nat) (action' : String), isModification action' = true →
      (SessionManager.getFileHistory st targetFile).hasBeenRead = true →
      (handleValidateAction isModification now' action' targetFile (applyOps ops st)).1.allowed = true) := by
  constructor
  · rw [validateAction_allowed_iff]
    exact ⟨fun h => h.2, fun h => ⟨hmod, h⟩⟩
  · intro ops now' action' hmod' hread
    have hread' := hasBeenRead_applyOps_mono ops st targetFile hread
    cases hAll : (handleValidateAction isModification now' action' targetFile (applyOps ops st)).1.allowed with
    | false =>
      have h2 := (validateAction_allowed_iff isModification now' action' targetFile (applyOps ops st)).mp hAll
      rw [h2.2] at hread'
      exact absurd hread' Bool.false_ne_true
    | true => rfl

/-- Witness for C1 at a concrete input: after recording a read of `a.txt` and
then switching phases, a modification of `a.txt` is allowed. -/
theorem c1_read_before_write_gate_witness :
    (handleValidateAction (fun a => decide (a = "edit")) 1 "edit" "a.txt"
      (applyOps [Op.updatePhase .TEST]
        (SessionManager.recordFileRead 0 "a.txt" (some scenarioSession)))).1.allowed = true :=
  (c1_read_before_write_gate (fun a => decide (a = "edit")) 0 "edit" "a.txt"
    (SessionManager.recordFileRead 0 "a.txt" (some scenarioSession)) (by decide)).2
    [Op.updatePhase .TEST] 1 "edit" (by decide) (by decide)

/-- C5: Monotonic completed-phases. Across any sequence of in-session
operations (phase updates, phase-output recording, validation, file-history
recording), `completedPhases` only ever grows — the old list is a prefix of
the new one — and it stays duplicate-free. -/
theorem c5_completed_phases_monotone (st : Option SessionState) (ops : List Op) :
    completedOf st <+: completedOf (applyOps ops st) ∧
      ((completedOf st).Nodup → (completedOf (applyOps ops st)).Nodup) :=
  ⟨completedOf_applyOps_extends ops st, completedOf_applyOps_nodup ops st⟩

/-- Witness for C5 at a concrete input: a fresh session, two phase updates and
one phase output leave `completedPhases` an extension of `[]` with no
duplicates. -/
theorem c5_completed_phases_monotone_witness :
    completedOf (some scenarioSession) <+:
      completedOf (applyOps [Op.updatePhase .TEST, Op.updatePhase .PRESENT] (some scenarioSession)) ∧
    (completedOf (applyOps [Op.updatePhase .TEST, Op.updatePhase .PRESENT] (some scenarioSession))).Nodup :=
  ⟨(c5_completed_phases_monotone (some scenarioSession) [Op.updatePhase .TEST, Op.updatePhase .PRESENT]).1,
   (c5_completed_phases_monotone (some scenarioSession) [Op.updatePhase .TEST, Op.updatePhase .PRESENT]).2
     (by decide)⟩

theorem hasReachedIterationLimit_iff_spec (s : SessionState) (cfg : WorkflowConfiguration)
    (phase : Phase) (hcfg : s.workflowConfig = some cfg) :
    SessionManager.hasReachedIterationLimit (some s) phase = true ↔
      ∃ lim, specIterationLimitFor cfg.iterationLimits phase = some lim ∧
        lim ≤ SessionManager.getIterationCount (some s) phase := by
  simp only [SessionManager.hasReachedIterationLimit, hcfg]
  cases phase <;> simp [specIterationLimitFor]

/-- C4: Escalation decision contract. With a configured session,
`shouldEscalateToUserInput(phase)` returns an `EscalationContext` exactly when
(a) the phase has a configured iteration limit that `iterationCounts[phase]`
has reached and `escalateOnIterationLimit` is set, or (b)
`validationStates[phase].attempts >= 3` and `escalateOnErrors` is set; in every
other case it returns none. -/
theorem c4_should_escalate_contract (s : SessionState) (cfg : WorkflowConfiguration)
    (phase : Phase) (err : Option String) (hcfg : s.workflowConfig = some cfg) :
    (SessionManager.shouldEscalateToUserInput (some s) phase err).isSome = true ↔
      ((cfg.escalationTriggers.escalateOnIterationLimit = true ∧
          ∃ lim, specIterationLimitFor cfg.iterationLimits phase = some lim ∧
            lim ≤ SessionManager.getIterationCount (some s) phase) ∨
        (cfg.escalationTriggers.escalateOnErrors = true ∧
          ∃ vs, lookupStore phase s.validationStates = some vs ∧ 3 ≤ vs.attempts)) := by
  by_cases hA : cfg.escalationTriggers.escalateOnIterationLimit = true ∧
      SessionManager.hasReachedIterationLimit (some s) phase = true
  · simp only [SessionManager.shouldEscalateToUserInput, hcfg, if_pos hA, Option.isSome_some,
      true_iff]
    exact Or.inl ⟨hA.1, (hasReachedIterationLimit_iff_spec s cfg phase hcfg).mp hA.2⟩
  · simp only [SessionManager.shouldEscalateToUserInput, hcfg, if_neg hA]
    cases hvs : SessionManager.getValidationState (some s) phase with
    | none =>
      simp only [Option.isSome_none, Bool.false_eq_true, false_iff]
      rintro (⟨hx, hy⟩ | ⟨hx, vs, hl, hatt⟩)
      · exact hA ⟨hx, (hasReachedIterationLimit_iff_spec s cfg phase hcfg).mpr hy⟩
      · rw [show lookupStore phase s.validationStates =
            SessionManager.getValidationState (some s) phase from rfl, hvs] at hl
        exact Option.noConfusion hl
    | some vs =>
      by_cases hB : cfg.escalationTriggers.escalateOnErrors = true ∧ 3 ≤ vs.attempts
      · simp only [if_pos hB, Option.isSome_some, true_iff]
        exact Or.inr ⟨hB.1, vs, hvs, hB.2⟩
      · simp only [if_neg hB, Option.isSome_none, Bool.false_eq_true, false_iff]
        rintro (⟨hx, hy⟩ | ⟨hx, vs', hl, hatt⟩)
        · exact hA ⟨hx, (hasReachedIterationLimit_iff_spec s cfg phase hcfg).mpr hy⟩
        · rw [show lookupStore phase s.validationStates =
              SessionManager.getValidationState (some s) phase from rfl, hvs] at hl
          cases hl
          exact hB ⟨hx, hatt⟩

/-- Witness for C4 at a concrete input: with three recorded LINT validation
attempts and `escalateOnErrors` set, the decision is an escalation context. -/
theorem c4_should_escalate_contract_witness :
    (SessionManager.shouldEscalateToUserInput (some escalateSession) .LINT none).isSome = true :=
  (c4_should_escalate_contract escalateSession scenarioConfig .LINT none rfl).mpr
    (Or.inr ⟨rfl, _, rfl, by decide⟩)

/-- C6: Invalid-JSON artifact rejection with atomicity. If any submitted
artifact is declared `json` but its content fails to parse, `phase_output`
returns a validation-error result (never `recorded`), records no phase output,
and leaves the session — in particular `completedPhases` — untouched. -/
theorem c6_invalid_json_rejected (jsonValid : String → Bool) (now : Nat) (today : String)
    (params : PhaseOutputParams) (s : SessionState) (a : OutputArtifact)
    (ha : a ∈ params.outputArtifacts) (hfmt : a.format = .json)
    (hbad : jsonValid a.content = false) :
    (∃ errs, (handlePhaseOutput jsonValid now today params (some s)).1 = .validationFailed errs) ∧
      (handlePhaseOutput jsonValid now today params (some s)).2 = some s := by
  have hlen : ¬params.outputArtifacts.length = 0 := by
    intro h
    rw [List.length_eq_zero] at h
    rw [h] at ha
    exact List.not_mem_nil a ha
  have hmsg : ("Artifact \"" ++ a.path ++ "\": Invalid JSON format") ∈
      artifactErrorList jsonValid params.phase a := by
    simp [artifactErrorList, hfmt, hbad]
  have hmem : ("Artifact \"" ++ a.path ++ "\": Invalid JSON format") ∈
      (params.outputArtifacts.map (artifactErrorList jsonValid params.phase)).flatten := by
    rw [List.mem_flatten]
    exact ⟨artifactErrorList jsonValid params.phase a, List.mem_map_of_mem _ ha, hmsg⟩
  have hpos : 0 < (params.outputArtifacts.map (artifactErrorList jsonValid params.phase)).flatten.length :=
    List.length_pos.mpr (List.ne_nil_of_mem hmem)
  simp only [handlePhaseOutput, if_neg hlen, if_pos hpos]
  refine ⟨⟨_, rfl⟩, by simp⟩

/-- Witness for C6 at a concrete input: one malformed JSON artifact is
rejected and the session is unchanged. -/
theorem c6_invalid_json_rejected_witness :
    (∃ errs, (handlePhaseOutput nullOnlyJson 0 "2025-01-01" badJsonParams
      (some scenarioSession)).1 = .validationFailed errs) ∧
    (handlePhaseOutput nullOnlyJson 0 "2025-01-01" badJsonParams
      (some scenarioSession)).2 = some scenarioSession :=
  c6_invalid_json_rejected nullOnlyJson 0 "2025-01-01" badJsonParams scenarioSession
    badJsonArtifact (by decide) (by decide) (by decide)

/-- C7: Scenario B acceptance. In an active session, submitting
AUDIT_INVENTORY output with one artifact whose content has at least 10
non-whitespace characters, parses when declared `json`, and mentions "audit"
and "changes", is recorded, and `completedPhases` then contains
AUDIT_INVENTORY. -/
theorem c7_scenario_b (jsonValid : String → Bool) (now : Nat) (today : String)
    (s : SessionState) (out : OutputObject) (art : OutputArtifact)
    (hw : 10 ≤ art.content.toList.countP (fun c => !c.isWhitespace))
    (hjson : art.format = .json → jsonValid art.content = true)
    (haudit : strIncludes (strToLower art.content) "audit" = true)
    (hchanges : strIncludes (strToLower art.content) "changes" = true) :
    (handlePhaseOutput jsonValid now today
      { phase := .AUDIT_INVENTORY, output := out, outputArtifacts := [art] } (some s)).1.isRecorded = true ∧
    Phase.AUDIT_INVENTORY ∈ completedOf (handlePhaseOutput jsonValid now today
      { phase := .AUDIT_INVENTORY, output := out, outputArtifacts := [art] } (some s)).2 := by
  have hErr : artifactErrorList jsonValid .AUDIT_INVENTORY art = [] := by
    simp only [artifactErrorList]
    rw [if_neg, if_neg, if_neg]
    · simp
    · intro hfalse
      rw [show validatePhaseSpecificContent .AUDIT_INVENTORY art = true from by
        simp [validatePhaseSpecificContent, haudit]] at hfalse
      exact Bool.noConfusion hfalse
    · rintro ⟨hfmt, hbad⟩
      rw [hjson hfmt] at hbad
      exact Bool.noConfusion hbad
    · rintro (hempty | hshort)
      · rw [hempty] at hw
        simp at hw
      · have hle := nonWhitespace_le_strTrim_length art.content
        omega
  have hone := mem_completedPhases_phaseOutputApplyS now today
    { phase := .AUDIT_INVENTORY, output := out, outputArtifacts := [art] } s
  constructor
  · simp [handlePhaseOutput, hErr, PhaseOutputResponse.isRecorded]
  · simpa [handlePhaseOutput, hErr, completedOf] using hone

/-- Witness for C7 at a concrete input: the Scenario B artifact is accepted. -/
theorem c7_scenario_b_witness :
    (handlePhaseOutput nullOnlyJson 0 "2025-01-01" scenarioBParams (some scenarioSession)).1.isRecorded = true ∧
    Phase.AUDIT_INVENTORY ∈
      completedOf (handlePhaseOutput nullOnlyJson 0 "2025-01-01" scenarioBParams (some scenarioSession)).2 :=
  c7_scenario_b nullOnlyJson 0 "2025-01-01" scenarioSession
    { errors := none, fixesApplied := none } scenarioBArtifact
    (by decide) (by intro h; exact absurd h (by decide)) (by decide) (by decide)

theorem shouldEscalate_isSome_of_validation (s₂ : SessionState) (cfg : WorkflowConfiguration)
    (phase : Phase) (hcfg2 : s₂.workflowConfig = some cfg)
    (herr : cfg.escalationTriggers.escalateOnErrors = true)
    (nvs : ValidationState) (hval : lookupStore phase s₂.validationStates = some nvs)
    (hn : 3 ≤ nvs.attempts) :
    (SessionManager.shouldEscalateToUserInput (some s₂) phase none).isSome = true := by
  simp only [SessionManager.shouldEscalateToUserInput, hcfg2]
  split
  · simp
  · rw [show SessionManager.getValidationState (some s₂) phase = some nvs from hval]
    simp [herr, hn]

theorem shouldEscalate_of_attempts (s : SessionState) (cfg : WorkflowConfiguration)
    (phase : Phase) (hcfg : s.workflowConfig = some cfg)
    (herr : cfg.escalationTriggers.escalateOnErrors = true)
    (nvs : ValidationState) (hn : 3 ≤ nvs.attempts) :
    (SessionManager.shouldEscalateToUserInput
      (SessionManager.setValidationState phase nvs (some s)) phase none).isSome = true :=
  shouldEscalate_isSome_of_validation
    { s with validationStates := setStore phase nvs s.validationStates } cfg phase hcfg herr
    nvs (lookupStore_setStore_self phase nvs s.validationStates) hn

/-- C10 (implicit): escalation preempts success. `validate_phase_completion`
checks escalation before the pass/fail outcome, so once the stored attempts
counter reaches 3 (with `escalateOnErrors` set), even a submission that passes
every minimum requirement and expected file is returned as an escalation with
`isValid: false` — never as `canProceed: true`. -/
theorem c10_escalation_preempts_success (now : Nat) (params : ValidatePhaseParams)
    (s : SessionState) (cfg : WorkflowConfiguration) (vs : ValidationState)
    (hcfg : s.workflowConfig = some cfg)
    (herr : cfg.escalationTriggers.escalateOnErrors = true)
    (hvs : lookupStore params.phase s.validationStates = some vs)
    (hatt : 2 ≤ vs.attempts)
    (hpass : (performPhaseValidation params.completedWork (params.createdFiles.getD [])
      (getValidationCriteriaForPhase params.phase (outputDirOf s))).isComplete = true) :
    (handleValidatePhaseCompletion now params (some s)).1.escalationRequired = true ∧
      (handleValidatePhaseCompletion now params (some s)).1.isValid = false ∧
      (handleValidatePhaseCompletion now params (some s)).1.canProceed = false := by
  simp only [handleValidatePhaseCompletion]
  split
  · exact ⟨rfl, rfl, rfl⟩
  · next heq =>
    exfalso
    set R := performPhaseValidation params.completedWork (params.createdFiles.getD [])
      (getValidationCriteriaForPhase params.phase (outputDirOf s)) with hR
    have h2 := shouldEscalate_of_attempts s cfg params.phase hcfg herr
      { isComplete := R.isComplete, completedRequirements := R.passed,
        failedRequirements := R.failed, lastValidatedAt := now,
        attempts := ((SessionManager.getValidationState (some s) params.phase).getD
          { isComplete := false, completedRequirements := [], failedRequirements := [],
            lastValidatedAt := now, attempts := 0 }).attempts + 1 }
      (by simp only [SessionManager.getValidationState, hvs, Option.getD_some]; omega)
    rw [heq] at h2
    simp at h2

/-- Witness for C10 at a concrete input: a third attempt that passes every
requirement is still returned as an escalation. -/
theorem c10_escalation_preempts_success_witness :
    (handleValidatePhaseCompletion 0 preemptParams (some preemptSession)).1.escalationRequired = true ∧
      (handleValidatePhaseCompletion 0 preemptParams (some preemptSession)).1.isValid = false ∧
      (handleValidatePhaseCompletion 0 preemptParams (some preemptSession)).1.canProceed = false :=
  c10_escalation_preempts_success 0 preemptParams preemptSession scenarioConfig _
    rfl rfl rfl (by decide) (by decide)

/-- C2 (code bug): Scenario C evaluated on the code. With
`iterationLimits.LINT = 2` and both escalation triggers enabled, three
consecutive failing LINT validations produce a third response that *is* an
escalation with `attemptCount = 3` — but its trigger is `validation_failure`,
not `iteration_limit`, because no code path ever calls
`incrementIterationCount`, so `iterationCounts[LINT]` is still `0` after all
three attempts and `hasReachedIterationLimit` never fires. -/
theorem c2_scenario_c_code_behavior :
    scenarioCRun3.1.escalationTrigger = some .validation_failure ∧
      scenarioCRun3.1.escalationAttemptCount = some 3 ∧
      SessionManager.getIterationCount scenarioCRun3.2 .LINT = 0 := by
  refine ⟨?_, ?_, ?_⟩ <;> rfl

/-- C3 (code bug): a validation attempt does not increment
`iterationCounts[phase]`. After one `validate_phase_completion` call on LINT
the stored validation attempts are 1, yet `iterationCounts[LINT]` is still 0
(the claim says it increments by exactly one per attempt). -/
theorem c3_iteration_count_not_incremented :
    SessionManager.getIterationCount scenarioCRun1.2 .LINT = 0 ∧
      (SessionManager.getValidationState scenarioCRun1.2 .LINT).map ValidationState.attempts =
        some 1 := by
  refine ⟨?_, ?_⟩ <;> rfl

/-- C9 (code bug): the PLANNING row of the phase→number table is unreachable.
`getPhaseNumber` computes `phaseMap[phase] || 99`, and since `0` is falsy in
JavaScript, PLANNING (table value 0) yields 99: its artifact file is named
`99-planning…`, which sorts *after* every other table phase instead of before
`01-audit-inventory…` as the table order (PLANNING = 0 < AUDIT_INVENTORY = 1)
requires. -/
theorem c9_planning_filename_breaks_order :
    generateNumberedFileName
        { phase := "PLANNING", outputDirectory := "out", extension := none, includeDate := some false }
        "2025-01-01" = "99-planning.md" ∧
      generateNumberedFileName
        { phase := "AUDIT_INVENTORY", outputDirectory := "out", extension := none, includeDate := some false }
        "2025-01-01" = "01-audit-inventory.md" ∧
      strLexLt "01-audit-inventory.md" "99-planning.md" = true := by
  refine ⟨?_, ?_, ?_⟩ <;> decide

/-- C8 counterexample: `updatePhase` invoked with no active session returns
exactly the same (void/undefined) value as a successful call on a live
session, and records nothing — there is no "no active session" signal
distinguishable from success. -/
theorem c8_no_session_signal_counterexample :
    (SessionManager.updatePhaseCall .TEST none).2 =
        (SessionManager.updatePhaseCall .TEST (some scenarioSession)).2 ∧
      (SessionManager.updatePhaseCall .TEST none).1 = none := ⟨rfl, rfl⟩

/-- C8 (amended): with no active session every Session Store mutator silently
does nothing — the state stays absent and the return value is the same
`undefined` a successful void call produces (`incrementIterationCount`
returns 0, which no active-session call returns). -/
theorem c8_no_session_silent_noop (phase : Phase) (now n : Nat) (p : String)
    (v : ValidationState) (o : EnrichedOutput) :
    SessionManager.updatePhaseCall phase none = (none, .undef) ∧
      SessionManager.recordPhaseOutputCall now phase o none = (none, .undef) ∧
      SessionManager.recordFileReadCall now p none = (none, .undef) ∧
      SessionManager.recordFileModificationCall now p none = (none, .undef) ∧
      SessionManager.setValidationStateCall phase v none = (none, .undef) ∧
      SessionManager.incrementIterationCountCall phase none = (none, .num 0) ∧
      SessionManager.updateLintIssuesFound n none = none ∧
      (∀ (s : SessionState),
        (SessionManager.incrementIterationCountCall phase (some s)).2 ≠ MutatorReturn.num 0) := by
  refine ⟨rfl, rfl, rfl, rfl, rfl, rfl, rfl, ?_⟩
  intro s
  simp [SessionManager.incrementIterationCountCall, SessionManager.incrementIterationCount]
